import Mathlib

/-!
Verification of the broadcasted-vue composables, a shallow embedding of
`src/composables/broadcasted.ts` (primary draft: channel health checking,
reopen on failure, topic-tagged messages) and `src/composables/useBroadcast.ts`
(secondary draft: channel named by topic, raw payload messages).

The embedding models the binding's closure state (the captured `value`,
the current `BroadcastChannel` handle, the reactivity trigger, the
health-check interval) as an explicit state record, and every operation of
the source as a pure state transformer.  Transport sends that may throw are
modelled by a Boolean "threw" component; a `BroadcastChannel.postMessage`
throws exactly when the handle has been closed, and a freshly constructed
channel is open.  An event trace records assignments, reactivity
notifications, outbound publishes, error logs and lifecycle actions, so
that ordering claims can be stated as facts about the trace.
-/

/-- A `BroadcastChannel` handle: its name, whether it is still open
(`postMessage` on a closed handle throws), and which of the two inbound
listeners (`message`, `messageerror`) are currently registered on it.
DOM `addEventListener` is idempotent per handler, so each listener is a
Boolean flag. -/
structure Chan where
  name : String
  isOpen : Bool
  msgListener : Bool
  errListener : Bool
deriving DecidableEq, Repr

/-- `new BroadcastChannel(name)`: a fresh, open handle with no listeners. -/
def newBroadcastChannel (name : String) : Chan :=
  { name := name, isOpen := true, msgListener := false, errListener := false }

/-- A message on the wire, as posted by `broadcasted.ts`.  A real payload is
the `ChannelEvent` record `\x7b name, data \x7d`; the health-check sentinel is
`\x7b event: channelHealthCheck \x7d`, which has no `name` field, so the inbound
handler's `e.data.name !== event` comparison never matches it. -/
inductive Msg (V : Type) where
  | sentinel
  | payload (name : String) (data : V)
deriving DecidableEq, Repr

/-- Observable actions, recorded in order of occurrence: value assignment,
reactivity `trigger()` call, outbound `postMessage`, `console.error` log,
channel construction, listener add/remove, interval start/stop, `close()`. -/
inductive Act (V : Type) where
  | assign (v : V)
  | notify
  | publish (m : Msg V)
  | logError (text : String)
  | openChannel (name : String)
  | addListener (kind : String)
  | removeListener (kind : String)
  | startTimer
  | clearTimer
  | closeChannel
deriving DecidableEq, Repr

namespace Broadcasted

/-- The closure state of one `broadcasted(event, value, options)` binding:
the captured `value`, whether `triggerReactiveValueChangeCallback` has been
assigned (it is assigned inside the `customRef` factory, which Vue runs
synchronously while constructing the ref), the current channel handle
(`channel.value`), whether the component is mounted, whether the
health-check interval is live (`channelHealthCheckInterval`), whether
health checking is enabled (`shouldCheckChannelHealthyState`), and the
event trace. -/
structure S (V : Type) where
  value : V
  triggerRegistered : Bool
  channel : Chan
  mounted : Bool
  timerActive : Bool
  shouldCheck : Bool
  events : List (Act V)
deriving DecidableEq, Repr

variable {V : Type}

/-- Append one observable action to the trace. -/
def emit (s : S V) (a : Act V) : S V :=
  { s with events := s.events ++ [a] }

/-- The hardcoded channel name: `const CHANNEL_NAME = 'ap'`. -/
def CHANNEL_NAME : String := "ap"

/-- `const CHANNEL_HEALTH_CHECK_EVENT_NAME = 'channelHealthCheck'`. -/
def CHANNEL_HEALTH_CHECK_EVENT_NAME : String := "channelHealthCheck"

/-- `channel.value.postMessage(m)`: succeeds on an open handle, appending a
publish action; throws (second component `true`) on a closed handle,
leaving the state unchanged. -/
def chanPost (s : S V) (m : Msg V) : S V × Bool :=
  if s.channel.isOpen then (emit s (Act.publish m), false) else (s, true)

/-- The `console.error` text of `runChannelHealthCheck`'s catch branch
(quote characters of the original template literal omitted). -/
def pingFailLog (event : String) : String :=
  "Error pinging channel with event " ++ event ++
    " - Attempting to re-establish channel"

/-- The `console.error` text of `onBroadcastChannelMessage` when the
reactivity trigger is not yet defined. -/
def raceLog (event : String) : String :=
  "Error triggering Vue reactivity hook when setting value for event " ++
    event ++ " - Trigger callback is not defined."

/-- `runChannelHealthCheck()`: try to post the sentinel; on a throw, log
and replace `channel.value` with `new BroadcastChannel(CHANNEL_NAME)`.
The catch swallows the error, so this never throws. -/
def runChannelHealthCheck (event : String) (s : S V) : S V :=
  let r := chanPost s Msg.sentinel
  if r.2 then
    let s1 := emit r.1 (Act.logError (pingFailLog event))
    emit { s1 with channel := newBroadcastChannel CHANNEL_NAME }
      (Act.openChannel CHANNEL_NAME)
  else r.1

/-- `postToChannel(value)`: build the tagged message, run the health check,
then `channel.value.postMessage(message)` — the final send is not wrapped
in a try/catch, so its `threw` component propagates to the caller. -/
def postToChannel (event : String) (v : V) (s : S V) : S V × Bool :=
  let msg := Msg.payload event v
  let s1 := runChannelHealthCheck event s
  chanPost s1 msg

/-- The custom ref's `set(newValue)`: assign `value`, call `trigger()`,
then `postToChannel(newValue)`. -/
def setOp (event : String) (v : V) (s : S V) : S V × Bool :=
  let s1 := emit { s with value := v } (Act.assign v)
  let s2 := emit s1 Act.notify
  postToChannel event v s2

/-- The custom ref's `get()`: `track()` then return the captured value. -/
def getOp (s : S V) : V := s.value

/-- `onBroadcastChannelMessage(e)`: if the trigger is not yet registered,
log and drop the message; otherwise, messages whose `name` tag differs
from this binding's event are ignored (the sentinel has no `name` field,
so it never matches); a matching payload is assigned to `value` and the
trigger is called. -/
def onBroadcastChannelMessage (event : String) (s : S V) (m : Msg V) : S V :=
  if s.triggerRegistered = false then
    emit s (Act.logError (raceLog event))
  else
    match m with
    | Msg.sentinel => s
    | Msg.payload n d =>
        if n = event then emit (emit { s with value := d } (Act.assign d)) Act.notify
        else s

/-- The `onMounted` callback: register the `message` and `messageerror`
listeners on the current handle, and start the health-check interval when
`shouldCheckChannelHealthyState` holds.  (The `if (!channel.value)` branch
in the source only logs and does not return, so it is omitted.) -/
def onMountedCb (s : S V) : S V :=
  let s1 := emit { s with channel := { s.channel with msgListener := true } }
    (Act.addListener "message")
  let s2 := emit { s1 with channel := { s1.channel with errListener := true } }
    (Act.addListener "messageerror")
  let s3 := { s2 with mounted := true }
  if s3.shouldCheck then emit { s3 with timerActive := true } Act.startTimer else s3

/-- The `onUnmounted` callback: clear the interval first (guarded by
`if (channelHealthCheckInterval)`), then remove both listeners, then
`close()` the current handle. -/
def onUnmountedCb (s : S V) : S V :=
  let s1 := if s.timerActive then emit { s with timerActive := false } Act.clearTimer
    else s
  let s2 := emit { s1 with channel := { s1.channel with msgListener := false } }
    (Act.removeListener "message")
  let s3 := emit { s2 with channel := { s2.channel with errListener := false } }
    (Act.removeListener "messageerror")
  emit { s3 with channel := { s3.channel with isOpen := false }, mounted := false }
    Act.closeChannel

/-- One firing of the health-check interval: runs `runChannelHealthCheck`
while the interval is live, and nothing once it has been cleared. -/
def tick (event : String) (s : S V) : S V :=
  if s.timerActive then runChannelHealthCheck event s else s

/-- Platform message delivery: an inbound message reaches
`onBroadcastChannelMessage` only when it is registered as the `message`
listener of the current handle and the handle is still open (a closed
channel delivers nothing). -/
def deliver (event : String) (s : S V) (m : Msg V) : S V :=
  if s.channel.isOpen && s.channel.msgListener then onBroadcastChannelMessage event s m
  else s

/-- Environment fault: the transport breaks, which makes every subsequent
send on the current handle throw. -/
def breakChannel (s : S V) : S V :=
  { s with channel := { s.channel with isOpen := false } }

/-- The binding's state after the body of `broadcasted()` has created the
channel ref but before `customRef` has run its factory: the trigger is not
yet registered and no listener is attached (listeners are attached only by
the `onMounted` callback, which runs after `broadcasted()` returns). -/
def preReturnState (v0 : V) (timeoutInMs : Option Nat) : S V :=
  { value := v0
    triggerRegistered := false
    channel := newBroadcastChannel CHANNEL_NAME
    mounted := false
    timerActive := false
    shouldCheck := decide (0 < timeoutInMs.getD 1000)
    events := [] }

/-- The binding's state when `broadcasted()` returns: Vue's `customRef`
runs the factory synchronously during construction of the ref, so
`triggerReactiveValueChangeCallback` is assigned before the function
returns. -/
def initState (v0 : V) (timeoutInMs : Option Nat) : S V :=
  { preReturnState v0 timeoutInMs with triggerRegistered := true }

/-- Everything that can happen to a binding after `broadcasted()` returns:
mount, unmount, a local `set`, delivery of an inbound message, a firing of
the health-check interval, or the transport breaking. -/
inductive Step (event : String) : S V → S V → Prop where
  | mount (s : S V) : Step event s (onMountedCb s)
  | unmount (s : S V) : Step event s (onUnmountedCb s)
  | setLocal (s : S V) (v : V) : Step event s (setOp event v s).1
  | inbound (s : S V) (m : Msg V) : Step event s (deliver event s m)
  | timer (s : S V) : Step event s (tick event s)
  | chanBreak (s : S V) : Step event s (breakChannel s)

/-- States reachable from the post-return state by any sequence of steps. -/
inductive Reachable (event : String) (v0 : V) (timeoutInMs : Option Nat) : S V → Prop where
  | refl : Reachable event v0 timeoutInMs (initState v0 timeoutInMs)
  | step {s s' : S V} : Reachable event v0 timeoutInMs s → Step event s s' →
      Reachable event v0 timeoutInMs s'

/-- The outbound publishes recorded in the trace, in order. -/
def publishes (s : S V) : List (Msg V) :=
  s.events.filterMap fun a => match a with
    | Act.publish m => some m
    | _ => none

/-- How many reactivity notifications the trace records. -/
def notifyCount (s : S V) : Nat :=
  s.events.countP fun a => match a with
    | Act.notify => true
    | _ => false

/-- The fallback when `BroadcastChannel` is absent from `window`:
`broadcasted()` returns a plain Vue `ref(value)`; otherwise it returns the
bridged custom ref over the machine state. -/
inductive Binding (V : Type) where
  | broadcast (s : S V)
  | localOnly (v : V)
deriving DecidableEq, Repr

/-- `broadcasted(event, value, options)` at the level of this model:
feature-detect, then either the full machine or a plain ref. -/
def broadcastedInit (supported : Bool) (v0 : V) (timeoutInMs : Option Nat) : Binding V :=
  if supported then Binding.broadcast (initState v0 timeoutInMs)
  else Binding.localOnly v0

/-- `set` through the returned ref, in either mode. -/
def Binding.setRef (event : String) (v : V) : Binding V → Binding V
  | Binding.broadcast s => Binding.broadcast (setOp event v s).1
  | Binding.localOnly _ => Binding.localOnly v

/-- `get` through the returned ref, in either mode. -/
def Binding.getRef : Binding V → V
  | Binding.broadcast s => getOp s
  | Binding.localOnly v => v

end Broadcasted

namespace UseBroadcast

variable {V : Type}

/-- The closure state of one `broadcasted(topic, value)` binding of the
`useBroadcast.ts` draft: the captured `value`, the channel (null until the
`onMounted` callback constructs it), and the `isSupported` feature flag. -/
structure S (V : Type) where
  value : V
  channel : Option Chan
  isSupported : Bool
deriving DecidableEq, Repr

/-- `onMounted` callback of `useBroadcast.ts`: when supported, construct
`new BroadcastChannel(String(topic))` and register both listeners on it. -/
def onMountedCb (topic : String) (s : S V) : S V :=
  if s.isSupported = false then s
  else
    { s with channel := some { newBroadcastChannel topic with
        msgListener := true, errListener := true } }

/-- `onUnmounted` callback of `useBroadcast.ts`: when a channel exists,
remove both listeners and close it. -/
def onUnmountedCb (s : S V) : S V :=
  match s.channel with
  | none => s
  | some c => { s with channel := some { c with
      msgListener := false, errListener := false, isOpen := false } }

/-- The custom ref's `set(newValue)` in `useBroadcast.ts`: assign, call
`trigger()`, then post the raw value when supported and the channel is
non-null; this `postMessage` is unguarded, so a closed channel makes it
throw (second component `true`). -/
def setOp (v : V) (s : S V) : S V × Bool :=
  let s1 := { s with value := v }
  if s1.isSupported then
    match s1.channel with
    | some c => if c.isOpen then (s1, false) else (s1, true)
    | none => (s1, false)
  else (s1, false)

/-- The custom ref's `get()` in `useBroadcast.ts`. -/
def getOp (s : S V) : V := s.value

/-- `onChannelMessage` of `useBroadcast.ts`: with the trigger registered,
the raw event data is assigned to `value` unconditionally (routing is done
entirely by the channel name, which is the topic). -/
def onChannelMessage (s : S V) (d : V) : S V :=
  { s with value := d }

end UseBroadcast

open Broadcasted

section Helpers

variable {V : Type}

/-- `setOp` on an open (healthy) channel: the value is assigned, the trace
grows by assign, notify, the sentinel publish and the payload publish, the
channel is untouched, and nothing is thrown. -/
lemma setOp_open_eq (event : String) (v : V) (s : S V) (h : s.channel.isOpen = true) :
    setOp event v s = ({ s with
      value := v
      events := s.events ++ [Act.assign v, Act.notify, Act.publish Msg.sentinel,
        Act.publish (Msg.payload event v)] }, false) := by
  simp [setOp, postToChannel, runChannelHealthCheck, chanPost, emit, h]

/-- `setOp` on a closed (broken) channel: the value is assigned, the
sentinel send throws and is caught, the failure is logged, the handle is
replaced by a fresh one named `CHANNEL_NAME`, the payload is posted on the
fresh handle, and nothing is thrown to the writer. -/
lemma setOp_closed_eq (event : String) (v : V) (s : S V) (h : s.channel.isOpen = false) :
    setOp event v s = ({ s with
      value := v
      channel := newBroadcastChannel CHANNEL_NAME
      events := s.events ++ [Act.assign v, Act.notify,
        Act.logError (pingFailLog event), Act.openChannel CHANNEL_NAME,
        Act.publish (Msg.payload event v)] }, false) := by
  simp [setOp, postToChannel, runChannelHealthCheck, chanPost, emit, h,
    newBroadcastChannel]

end Helpers

section ClaimTheorems

variable {V : Type}

/-- A concrete binding state whose transport has broken: topic-agnostic
initial state with the default health-check interval, channel then closed
by the environment. -/
def sampleBroken : S Nat := breakChannel (initState 0 none)

/-- A concrete mounted binding state, default options. -/
def sampleMounted : S Nat := onMountedCb (initState 0 none)

/-- The mounted binding after its transport broke and the next health-check
tick performed the reopen. -/
def sampleReopened : S Nat := tick "HelloWorld" (breakChannel sampleMounted)

/-- C1: immediately after a local `set(v)` through the ref returned by
`broadcasted`, `get()` returns `v`, whatever the transport state: a
`Binding.broadcast` state covers an arbitrary (healthy or broken) channel,
`Binding.localOnly` covers the absent-`BroadcastChannel` fallback, and the
`useBroadcast.ts` draft's `set`/`get` satisfy the same read-after-write
property. -/
theorem c1_local_read_after_write (event : String) (v : V)
    (b : Binding V) (su : UseBroadcast.S V) :
    Binding.getRef (Binding.setRef event v b) = v ∧
    UseBroadcast.getOp (UseBroadcast.setOp v su).1 = v := by
  constructor
  · cases b with
    | broadcast s =>
      cases h : s.channel.isOpen
      · simp [Binding.setRef, Binding.getRef, getOp, setOp_closed_eq event v s h]
      · simp [Binding.setRef, Binding.getRef, getOp, setOp_open_eq event v s h]
    | localOnly w => rfl
  · cases hsup : su.isSupported <;> cases hch : su.channel <;>
      simp [UseBroadcast.setOp, UseBroadcast.getOp, hsup, hch, apply_ite]

/-- C2: when the transport is broken at the time of a local `set`, the
sentinel send of the pre-publish health check throws; the failure is
caught and logged, the handle is replaced by a freshly opened channel
bound to the same channel name (hence the same routing as before, the
binding's topic included), and no exception reaches the writer. -/
theorem c2_broken_send_caught_logged_reopened (event : String) (v : V) (s : S V)
    (hb : s.channel.isOpen = false) (hn : s.channel.name = CHANNEL_NAME) :
    (setOp event v s).2 = false ∧
    Act.logError (pingFailLog event) ∈ (setOp event v s).1.events ∧
    (setOp event v s).1.channel = newBroadcastChannel CHANNEL_NAME ∧
    (setOp event v s).1.channel.name = s.channel.name ∧
    (setOp event v s).1.channel.isOpen = true := by
  rw [setOp_closed_eq event v s hb]
  simp [newBroadcastChannel, hn]

/-- Witness for C2 at a concrete broken state. -/
theorem c2_witness :
    sampleBroken.channel.isOpen = false ∧
    ((setOp "HelloWorld" (1 : Nat) sampleBroken).2 = false ∧
     Act.logError (pingFailLog "HelloWorld")
       ∈ (setOp "HelloWorld" (1 : Nat) sampleBroken).1.events ∧
     (setOp "HelloWorld" (1 : Nat) sampleBroken).1.channel
       = newBroadcastChannel CHANNEL_NAME ∧
     (setOp "HelloWorld" (1 : Nat) sampleBroken).1.channel.name
       = sampleBroken.channel.name ∧
     (setOp "HelloWorld" (1 : Nat) sampleBroken).1.channel.isOpen = true) :=
  ⟨by decide,
   c2_broken_send_caught_logged_reopened "HelloWorld" 1 sampleBroken
     (by decide) (by decide)⟩

/-- C7: in every `set(newValue)` call, the trace grows first by the value
assignment and the reactivity notification, and only after them by the
publish actions (sentinel then payload on a healthy channel; log, reopen
and payload on a broken one), so no publish precedes the local update. -/
theorem c7_assign_notify_precede_publish (event : String) (v : V) (s : S V) :
    (setOp event v s).1.events = s.events ++ [Act.assign v, Act.notify] ++
      (if s.channel.isOpen then
        [Act.publish Msg.sentinel, Act.publish (Msg.payload event v)]
       else
        [Act.logError (pingFailLog event), Act.openChannel CHANNEL_NAME,
         Act.publish (Msg.payload event v)]) := by
  cases h : s.channel.isOpen
  · rw [setOp_closed_eq event v s h]; simp
  · rw [setOp_open_eq event v s h]; simp

/-- C8: the detach callback clears the interval first (when it was live),
then removes the `message` and `messageerror` listeners, then closes the
handle; afterwards the interval flag is down, a timer tick is a no-op, and
delivery of any inbound message leaves the state (hence the value)
unchanged. -/
theorem c8_detach_order_then_quiescent (event : String) (s : S V) :
    (onUnmountedCb s).events = s.events ++
      (if s.timerActive then [Act.clearTimer] else []) ++
      [Act.removeListener "message", Act.removeListener "messageerror",
       Act.closeChannel] ∧
    (onUnmountedCb s).timerActive = false ∧
    tick event (onUnmountedCb s) = onUnmountedCb s ∧
    (∀ m : Msg V, deliver event (onUnmountedCb s) m = onUnmountedCb s) := by
  cases h : s.timerActive <;>
    simp [onUnmountedCb, h, emit, tick, deliver]

end ClaimTheorems

section ClaimTheorems2

variable {V : Type}

/-- How many outbound publishes in the trace carry the payload `v` tagged
with `event`. -/
def carrying [DecidableEq V] (event : String) (v : V) (s : S V) : Nat :=
  (publishes s).countP fun m => decide (m = Msg.payload event v)

/-- C3: with the reactivity trigger registered, an inbound real-payload
message whose tag matches the binding's topic makes `get()` return its
payload, appends exactly an assignment and one notification to the trace
(so exactly one change notification is raised), and adds no outbound
publish (no echo). -/
theorem c3_inbound_payload_applied_no_echo (event : String) (d : V) (s : S V)
    (h : s.triggerRegistered = true) :
    (onBroadcastChannelMessage event s (Msg.payload event d)).value = d ∧
    (onBroadcastChannelMessage event s (Msg.payload event d)).events
      = s.events ++ [Act.assign d, Act.notify] ∧
    notifyCount (onBroadcastChannelMessage event s (Msg.payload event d))
      = notifyCount s + 1 ∧
    publishes (onBroadcastChannelMessage event s (Msg.payload event d))
      = publishes s := by
  simp [onBroadcastChannelMessage, h, emit, notifyCount, publishes,
    List.countP_append, List.filterMap_append, List.countP_cons]

/-- Witness for C3 at the post-return state with payload 5. -/
theorem c3_witness :
    (initState (0 : Nat) none).triggerRegistered = true ∧
    ((onBroadcastChannelMessage "HelloWorld" (initState (0 : Nat) none)
        (Msg.payload "HelloWorld" 5)).value = 5 ∧
     (onBroadcastChannelMessage "HelloWorld" (initState (0 : Nat) none)
        (Msg.payload "HelloWorld" 5)).events
       = (initState (0 : Nat) none).events ++ [Act.assign 5, Act.notify] ∧
     notifyCount (onBroadcastChannelMessage "HelloWorld" (initState (0 : Nat) none)
        (Msg.payload "HelloWorld" 5))
       = notifyCount (initState (0 : Nat) none) + 1 ∧
     publishes (onBroadcastChannelMessage "HelloWorld" (initState (0 : Nat) none)
        (Msg.payload "HelloWorld" 5))
       = publishes (initState (0 : Nat) none)) :=
  ⟨by decide,
   c3_inbound_payload_applied_no_echo "HelloWorld" 5 (initState 0 none) (by decide)⟩

/-- C6: an inbound sentinel message never changes the value and never adds
a notification or a publish; with the trigger registered (the normal
case), the handler ignores it entirely, leaving the state untouched. -/
theorem c6_sentinel_silently_ignored (event : String) (s : S V) :
    (onBroadcastChannelMessage event s Msg.sentinel).value = s.value ∧
    notifyCount (onBroadcastChannelMessage event s Msg.sentinel) = notifyCount s ∧
    publishes (onBroadcastChannelMessage event s Msg.sentinel) = publishes s ∧
    (s.triggerRegistered = true → onBroadcastChannelMessage event s Msg.sentinel = s) := by
  cases h : s.triggerRegistered <;>
    simp [onBroadcastChannelMessage, h, emit, notifyCount, publishes,
      List.countP_append, List.filterMap_append, List.countP_cons]

/-- Witness for C6: at the post-return state, the sentinel leaves the state
exactly as it was. -/
theorem c6_witness :
    (onBroadcastChannelMessage "HelloWorld" (initState (0 : Nat) none)
      Msg.sentinel).value = (initState (0 : Nat) none).value ∧
    onBroadcastChannelMessage "HelloWorld" (initState (0 : Nat) none) Msg.sentinel
      = initState (0 : Nat) none :=
  ⟨(c6_sentinel_silently_ignored "HelloWorld" (initState 0 none)).1,
   (c6_sentinel_silently_ignored "HelloWorld" (initState 0 none)).2.2.2 (by decide)⟩

/-- C4 as stated is false on the code: at a concrete broken-transport
state, a local `set(1)` still results in exactly one outbound publish
carrying `1` — the pre-publish health check reopens the channel and the
payload is then posted on the fresh handle — not the zero publishes the
claim asserts for the broken case. -/
theorem c4_counterexample :
    sampleBroken.channel.isOpen = false ∧
    carrying "HelloWorld" 1 sampleBroken = 0 ∧
    carrying "HelloWorld" 1 (setOp "HelloWorld" (1 : Nat) sampleBroken).1 = 1 := by
  decide

/-- C4 amended: every local `set(v)` results in exactly one outbound
publish carrying `v` and never throws; on a healthy transport the payload
publish is preceded by a sentinel publish on the same handle, while on a
broken transport the sentinel send fails, a reopen is performed, and the
single payload publish happens on the fresh handle. -/
theorem c4_amended_always_one_publish [DecidableEq V] (event : String) (v : V) (s : S V) :
    (setOp event v s).2 = false ∧
    carrying event v (setOp event v s).1 = carrying event v s + 1 ∧
    publishes (setOp event v s).1 = publishes s ++
      (if s.channel.isOpen then [Msg.sentinel, Msg.payload event v]
       else [Msg.payload event v]) ∧
    (s.channel.isOpen = false →
      Act.openChannel CHANNEL_NAME ∈ (setOp event v s).1.events) := by
  cases h : s.channel.isOpen
  · rw [setOp_closed_eq event v s h]
    simp [carrying, publishes, List.filterMap_append, List.countP_append,
      List.countP_cons]
  · rw [setOp_open_eq event v s h]
    simp [carrying, publishes, List.filterMap_append, List.countP_append,
      List.countP_cons]

/-- Witness for C4's amended statement at a concrete broken state. -/
theorem c4_witness :
    ((setOp "HelloWorld" (2 : Nat) sampleBroken).2 = false) ∧
    carrying "HelloWorld" 2 (setOp "HelloWorld" (2 : Nat) sampleBroken).1
      = carrying "HelloWorld" 2 sampleBroken + 1 ∧
    Act.openChannel CHANNEL_NAME ∈ (setOp "HelloWorld" (2 : Nat) sampleBroken).1.events :=
  ⟨(c4_amended_always_one_publish "HelloWorld" 2 sampleBroken).1,
   (c4_amended_always_one_publish "HelloWorld" 2 sampleBroken).2.1,
   (c4_amended_always_one_publish "HelloWorld" 2 sampleBroken).2.2.2 (by decide)⟩

/-- C5 is violated by the code: after mounting (which registers both
listeners on the then-current handle), a transport break followed by a
health-check tick replaces the handle via `new BroadcastChannel` without
re-registering any listener, so while still mounted the live handle has
zero inbound listeners instead of the claimed two. -/
theorem c5_reopen_loses_listeners :
    sampleMounted.channel.msgListener = true ∧
    sampleMounted.channel.errListener = true ∧
    sampleReopened.mounted = true ∧
    Act.openChannel CHANNEL_NAME ∈ sampleReopened.events ∧
    sampleReopened.channel.msgListener = false ∧
    sampleReopened.channel.errListener = false := by
  decide

end ClaimTheorems2

section ClaimTheorems3

variable {V : Type}

/-- C9 as stated is false on the code: for the binding with topic
`HelloWorld` the underlying channel is constructed (initially and on every
reopen) with the hardcoded name `ap`, not with the binding's topic. -/
theorem c9_counterexample :
    (initState (0 : Nat) none).channel.name = "ap" ∧
    sampleReopened.channel.name = "ap" ∧
    (initState (0 : Nat) none).channel.name ≠ "HelloWorld" := by
  decide

/-- C9 amended: in `broadcasted.ts` every binding's channel is constructed
with the constant name `ap` (initially and on reopen); the topic is used
as a per-message routing tag instead — the inbound handler applies a
payload exactly when its tag equals the binding's topic, so two bindings
on the shared channel exchange state exactly when their topic strings are
identical.  (In the `useBroadcast.ts` draft the channel is constructed
with the topic as its name.) -/
theorem c9_amended_tag_routing (event t1 : String) (v0 d : V) (tmo : Option Nat)
    (s : S V) (h : s.triggerRegistered = true) :
    (initState v0 tmo).channel.name = CHANNEL_NAME ∧
    (runChannelHealthCheck event (breakChannel s)).channel.name = CHANNEL_NAME ∧
    (t1 = event →
      (onBroadcastChannelMessage event s (Msg.payload t1 d)).value = d) ∧
    (t1 ≠ event →
      onBroadcastChannelMessage event s (Msg.payload t1 d) = s) ∧
    (UseBroadcast.onMountedCb t1
        ({ value := v0, channel := none, isSupported := true } : UseBroadcast.S V)).channel
      = some { name := t1, isOpen := true, msgListener := true, errListener := true } := by
  refine ⟨rfl, ?_, ?_, ?_, ?_⟩
  · simp [runChannelHealthCheck, chanPost, breakChannel, emit, newBroadcastChannel]
  · intro he
    subst he
    simp [onBroadcastChannelMessage, h, emit]
  · intro hne
    simp [onBroadcastChannelMessage, h, hne]
  · simp [UseBroadcast.onMountedCb, newBroadcastChannel]

/-- Witness for C9's amended statement: concrete topic `HelloWorld`,
matching inbound tag, and the `useBroadcast.ts` channel name. -/
theorem c9_witness :
    (initState (0 : Nat) none).channel.name = CHANNEL_NAME ∧
    (onBroadcastChannelMessage "HelloWorld" (initState (0 : Nat) none)
      (Msg.payload "HelloWorld" 9)).value = 9 ∧
    (UseBroadcast.onMountedCb "HelloWorld"
        ({ value := (0 : Nat), channel := none, isSupported := true } : UseBroadcast.S Nat)).channel
      = some { name := "HelloWorld", isOpen := true, msgListener := true, errListener := true } :=
  ⟨(c9_amended_tag_routing "HelloWorld" "HelloWorld" 0 9 none (initState 0 none) (by decide)).1,
   (c9_amended_tag_routing "HelloWorld" "HelloWorld" 0 9 none (initState 0 none) (by decide)).2.2.1 rfl,
   (c9_amended_tag_routing "HelloWorld" "HelloWorld" 0 9 none (initState 0 none) (by decide)).2.2.2.2⟩

/-- The inbound handler never changes whether the trigger is registered. -/
lemma handler_trigger (event : String) (s : S V) (m : Msg V) :
    (onBroadcastChannelMessage event s m).triggerRegistered = s.triggerRegistered := by
  cases h : s.triggerRegistered <;> cases m <;>
    simp [onBroadcastChannelMessage, h, emit, apply_ite]

/-- The health check never changes whether the trigger is registered. -/
lemma rhc_trigger (event : String) (s : S V) :
    (runChannelHealthCheck event s).triggerRegistered = s.triggerRegistered := by
  cases h : s.channel.isOpen <;>
    simp [runChannelHealthCheck, chanPost, h, emit]

/-- No step of the system changes whether the trigger is registered. -/
lemma step_trigger {event : String} {s s' : S V} (hs : Step event s s') :
    s'.triggerRegistered = s.triggerRegistered := by
  cases hs with
  | mount =>
      cases h : s.shouldCheck <;> simp [onMountedCb, emit, h]
  | unmount =>
      cases h : s.timerActive <;> simp [onUnmountedCb, emit, h]
  | setLocal v =>
      cases h : s.channel.isOpen
      · rw [setOp_closed_eq event v s h]
      · rw [setOp_open_eq event v s h]
  | inbound m =>
      by_cases hc : (s.channel.isOpen && s.channel.msgListener) = true <;>
        simp [deliver, hc, handler_trigger]
  | timer =>
      cases h : s.timerActive <;> simp [tick, h, rhc_trigger]
  | chanBreak => rfl

/-- In every reachable state the reactivity trigger is registered. -/
lemma reachable_trigger {event : String} {v0 : V} {tmo : Option Nat} {s : S V}
    (h : Reachable event v0 tmo s) : s.triggerRegistered = true := by
  induction h with
  | refl => rfl
  | step _ hs ih => rw [step_trigger hs, ih]

/-- C10: the race guard of the inbound handler is dead code.  The trigger
is assigned inside the `customRef` factory, which runs before
`broadcasted()` returns, while listeners are only attached by the mounted
callback afterwards: in the pre-return state no `message` listener exists
and delivery is a no-op, and in every state reachable after the return the
trigger is registered, so a matching payload is always applied and the
race-branch log is never newly emitted for any inbound message. -/
theorem c10_race_guard_unreachable (event : String) (v0 : V) (tmo : Option Nat)
    (s : S V) (h : Reachable event v0 tmo s) :
    s.triggerRegistered = true ∧
    (preReturnState v0 tmo).channel.msgListener = false ∧
    (∀ m : Msg V, deliver event (preReturnState v0 tmo) m = preReturnState v0 tmo) ∧
    (∀ d : V, (onBroadcastChannelMessage event s (Msg.payload event d)).value = d) ∧
    (∀ m : Msg V,
      Act.logError (raceLog event) ∈ (onBroadcastChannelMessage event s m).events →
      Act.logError (raceLog event) ∈ s.events) := by
  have ht := reachable_trigger h
  refine ⟨ht, rfl, ?_, ?_, ?_⟩
  · intro m
    simp [deliver, preReturnState, newBroadcastChannel]
  · intro d
    simp [onBroadcastChannelMessage, ht, emit]
  · intro m
    cases m with
    | sentinel => simp [onBroadcastChannelMessage, ht]
    | payload n d =>
        by_cases hne : n = event <;>
          simp [onBroadcastChannelMessage, ht, hne, emit]

/-- Witness for C10 at the post-return state itself. -/
theorem c10_witness :
    (initState (0 : Nat) none).triggerRegistered = true ∧
    (onBroadcastChannelMessage "HelloWorld" (initState (0 : Nat) none)
      (Msg.payload "HelloWorld" 7)).value = 7 :=
  ⟨(c10_race_guard_unreachable "HelloWorld" 0 none _ Reachable.refl).1,
   (c10_race_guard_unreachable "HelloWorld" 0 none _ Reachable.refl).2.2.2.1 7⟩

end ClaimTheorems3
